import Mathlib

/-!
# Shallow embedding of the Helperly backend's ingestion-and-retrieval core

This file embeds, in Lean 4, the Python code of `backend/app` that the
specification's claims are about:

* `ChunkingService.chunk_text`       (services/chunking_service.py)
* `EmbeddingService.embed_text` / `embed_texts` / `_generate_stub_embedding`
                                     (services/embedding_service.py)
* `ChunkRepository.similarity_search` (repositories/chunk_repository.py)
* `QueryService.validate_origin` / `QueryService.query`
                                     (services/query_service.py)
* `create_chatbox` / `update_chatbox` (api/routes/chatboxes.py)
* `IngestionService.ingest_text`     (services/ingestion_service.py)

Python-level conventions used throughout the embedding:

* Python `int` is `Int` (arbitrary precision in both).
* Python `float` literals that only flow through the code unchanged
  (defaults such as `0.7`, similarity scores, embedding components) are
  modelled as `ℚ`; no claim in scope depends on floating-point rounding.
* A Python function that can `raise` returns `Except PyErr α`; the typed
  exception classes of `app/core/exceptions.py` are the constructors of
  `PyErr`.
* `None`-able values are `Option`; Python truthiness tests (`if not x:`)
  are modelled explicitly (`none` and the empty string / empty list are
  falsy).
* External collaborators (the OpenAI client, numpy's seeded generator,
  the pgvector engine, the LLM client) are modelled as function-valued
  fields of the corresponding service structure: each is some fixed but
  arbitrary function, so theorems quantify over every possible behaviour
  of the collaborator.
-/

namespace Helperly

/-- The typed exceptions of `app/core/exceptions.py`, plus Python's
built-in `TypeError` (which the runtime raises on ill-typed operations
such as subscripting a coroutine object). -/
inductive PyErr where
  | typeError (msg : String)
  | validationError (msg : String)
  | notFoundError (msg : String)
  | forbiddenError (msg : String)
  /-- `OriginNotAllowedError(origin)`: a `ForbiddenError` subclass carrying
  the rejected origin (exceptions.py lines 56-62). -/
  | originNotAllowedError (origin : String)
  | externalServiceError (msg : String) (service : String)
  deriving Repr, DecidableEq

/-- The whitespace characters stripped by Python's `str.strip()` for
ASCII input: space, tab, newline, carriage return, vertical tab,
form feed.  (Python also strips some non-ASCII Unicode spaces; no text
in scope uses them.) -/
def pyIsSpace (c : Char) : Bool :=
  c = ' ' || c = '\t' || c = '\n' || c = '\r' || c.toNat = 11 || c.toNat = 12

/-- Python `str.strip()` on a character list: drop leading and trailing
whitespace. -/
def pyStrip (l : List Char) : List Char :=
  ((l.dropWhile pyIsSpace).reverse.dropWhile pyIsSpace).reverse

/-- Python `str.lower()` (character-wise lowering; agrees with CPython on
ASCII, which is all the origin strings in scope use). -/
def pyLower (s : String) : String :=
  String.mk (s.toList.map Char.toLower)

/-- Python `str.rstrip(chars)`: remove ALL trailing characters belonging
to `chars` (not just one occurrence). -/
def pyRstrip (chars : List Char) (s : String) : String :=
  String.mk ((s.toList.reverse.dropWhile (chars.contains ·)).reverse)

/-- Normalise one Python slice index `i` of `s[i:j]` to an absolute
position in `[0, len]`: a negative index counts from the end, and both
ends are clamped to the string. -/
def pyNormIdx (len : Nat) (i : Int) : Nat :=
  if i < 0 then (max (i + len) 0).toNat else min i.toNat len

/-- Python slicing `l[a:b]` (step 1) on a character list. -/
def pySlice (l : List Char) (a b : Int) : List Char :=
  (l.take (pyNormIdx l.length b)).drop (pyNormIdx l.length a)

/-- Python `x or default` for an `Optional[int]` value: `None` and `0`
are falsy and yield the default; every other value is returned as is. -/
def pyOrInt (x : Option Int) (d : Int) : Int :=
  match x with
  | none => d
  | some v => if v = 0 then d else v

/-- Python `x or default` for an `Optional[float]` value: `None` and
`0.0` are falsy and yield the default. -/
def pyOrRat (x : Option ℚ) (d : ℚ) : ℚ :=
  match x with
  | none => d
  | some v => if v = 0 then d else v

/-- Python `x or default` for an `Optional[str]` value: `None` and the
empty string are falsy. -/
def pyOrStr (x : Option String) (d : String) : String :=
  match x with
  | none => d
  | some v => if v = "" then d else v

/-- Python truthiness test `not x` for an `Optional[str]`: true for
`None` and for the empty string. -/
def pyFalsyOptStr (x : Option String) : Bool :=
  match x with
  | none => true
  | some s => s = ""

/-- Python truthiness test `not x` for an `Optional[list]`: true for
`None` and for the empty list. -/
def pyFalsyOptList (x : Option (List String)) : Bool :=
  match x with
  | none => true
  | some l => l = []

/-! ## Settings (app/core/config.py)

The configuration values the embedded code reads (config.py lines
24-26 and 38-40). -/

def vector_min_score_default : ℚ := 7/10

def vector_top_k_default : Int := 5

def settings_chunk_size : Int := 1000

def settings_chunk_overlap : Int := 200

/-! ## ChunkingService (app/services/chunking_service.py)

`chunk_text` is a `while` loop; it is embedded with explicit fuel.
`chunk_text` passes `length text + 1` fuel, which is shown below to be
enough for the loop to run to its own exit condition on every input
(each non-breaking iteration advances `start` by at least one when the
advance is positive, and a non-positive advance breaks the loop on the
first iteration). -/

/-- The body of the `while start < text_length` loop of
`ChunkingService.chunk_text` (chunking_service.py lines 43-57):
take `text[start : start+chunk_size]`, append its stripped form if
non-empty, advance `start` by `chunk_size - chunk_overlap`, and break
if the new `start` is `<= 0`. -/
def chunkLoop (size ovl : Int) (text : List Char) :
    Nat → Int → List String → List String
  | 0, _, acc => acc
  | fuel + 1, start, acc =>
    if start < (text.length : Int) then
      let chunk := pySlice text start (start + size)
      let acc' := if pyStrip chunk ≠ [] then acc ++ [String.mk (pyStrip chunk)] else acc
      let start' := start + size - ovl
      if start' ≤ 0 then acc' else chunkLoop size ovl text fuel start' acc'
    else acc

/-- `ChunkingService.chunk_text(text)` (chunking_service.py lines 26-60),
with the service's effective `chunk_size` and `chunk_overlap` as
explicit arguments.  The source contains no `raise`: the function is
total and silently returns a list on every input (the `start <= 0`
test only breaks the loop). -/
def chunk_text (size ovl : Int) (text : String) : List String :=
  if text.toList = [] ∨ pyStrip text.toList = [] then []
  else chunkLoop size ovl text.toList (text.toList.length + 1) 0 []

/-- `ChunkingService.__init__(chunk_size, chunk_overlap)`
(chunking_service.py lines 18-24): each argument falls back to the
configured default when omitted or falsy (`x or settings...`). -/
def chunking_init (cs co : Option Int) : Int × Int :=
  (pyOrInt cs settings_chunk_size, pyOrInt co settings_chunk_overlap)

/-! ## CPython string hashing (used by `_generate_stub_embedding`)

`embedding_service.py` line 79 seeds numpy with `hash(text) % (2**32)`.
CPython's `hash` on `str` is SipHash-1-3 over the string's byte buffer,
keyed by the interpreter's per-process 128-bit hash secret
(`_Py_HashSecret`, drawn from `PYTHONHASHSEED` or the OS entropy pool at
interpreter startup).  The model below implements that algorithm exactly
for strings whose code points are below 256 (the one-byte-per-character
internal representation; every text in scope is ASCII), keyed by the
explicit secret `(k0, k1)`.  With the secret `(0, 0)` — CPython under
`PYTHONHASHSEED=0` — the model reproduces CPython 3.11 bit for bit, e.g.
`pyStrHash 0 0 "foo" = 7664243301495174138`. -/

/-- 64-bit truncation. -/
def w64 (n : Nat) : Nat := n % 2 ^ 64

/-- 64-bit rotate left.  The shifted-out high bits land in the low
positions, disjoint from the shifted-up low bits, so `+` is bitwise or. -/
def rotl64 (x : Nat) (r : Nat) : Nat :=
  (x * 2 ^ r) % 2 ^ 64 + x / 2 ^ (64 - r)

/-- One SipHash round on the state `(v0, v1, v2, v3)`. -/
def sipRound : Nat × Nat × Nat × Nat → Nat × Nat × Nat × Nat
  | (v0, v1, v2, v3) =>
    let v0 := w64 (v0 + v1)
    let v1 := rotl64 v1 13
    let v1 := v1.xor v0
    let v0 := rotl64 v0 32
    let v2 := w64 (v2 + v3)
    let v3 := rotl64 v3 16
    let v3 := v3.xor v2
    let v0 := w64 (v0 + v3)
    let v3 := rotl64 v3 21
    let v3 := v3.xor v0
    let v2 := w64 (v2 + v1)
    let v1 := rotl64 v1 17
    let v1 := v1.xor v2
    let v2 := rotl64 v2 32
    (v0, v1, v2, v3)

/-- Read a little-endian word from a byte list. -/
def leWord : List Nat → Nat
  | [] => 0
  | b :: bs => b + 256 * leWord bs

/-- The main SipHash-1-3 loop: absorb each full 8-byte block with one
round. -/
def sipBlocks : Nat × Nat × Nat × Nat → List Nat → Nat × Nat × Nat × Nat
  | st, b0 :: b1 :: b2 :: b3 :: b4 :: b5 :: b6 :: b7 :: rest =>
    let mi := leWord [b0, b1, b2, b3, b4, b5, b6, b7]
    let (v0, v1, v2, v3) := sipRound (st.1, st.2.1, st.2.2.1, (st.2.2.2).xor mi)
    sipBlocks (v0.xor mi, v1, v2, v3) rest
  | st, _ => st

/-- The trailing (fewer than 8) bytes of the input, in input order. -/
def sipTail (data : List Nat) : List Nat :=
  data.drop (8 * (data.length / 8))

/-- SipHash-1-3 of a byte string under the key `(k0, k1)`, exactly as in
CPython's `pyhash.c` (`pysiphash13`): 1 compression round per block,
3 finalization rounds, length byte in the top byte of the final block. -/
def siphash13 (k0 k1 : Nat) (data : List Nat) : Nat :=
  let v0 := Nat.xor k0 0x736f6d6570736575
  let v1 := Nat.xor k1 0x646f72616e646f6d
  let v2 := Nat.xor k0 0x6c7967656e657261
  let v3 := Nat.xor k1 0x7465646279746573
  let (v0, v1, v2, v3) := sipBlocks (v0, v1, v2, v3) data
  let b := w64 ((data.length % 256) * 2 ^ 56 + leWord (sipTail data))
  let (v0, v1, v2, v3) := sipRound (v0, v1, v2, (Nat.xor v3 b))
  let v0 := v0.xor b
  let v2 := v2.xor 0xff
  let (v0, v1, v2, v3) := sipRound (sipRound (sipRound (v0, v1, v2, v3)))
  ((v0.xor v1).xor v2).xor v3

/-- The byte buffer CPython hashes for a string of code points `< 256`
(its one-byte-kind representation; equal to UTF-8 for ASCII text). -/
def strBytes (s : String) : List Nat :=
  s.toList.map Char.toNat

/-- CPython's `hash()` of a string under the per-process hash secret
`(k0, k1)`: `0` for the empty string, otherwise SipHash-1-3 of the byte
buffer interpreted as a signed 64-bit value, with `-1` mapped to `-2`. -/
def pyStrHash (k0 k1 : Nat) (s : String) : Int :=
  if s = "" then 0
  else
    let h := siphash13 k0 k1 (strBytes s)
    let signed : Int := if h < 2 ^ 63 then (h : Int) else (h : Int) - 2 ^ 64
    if signed = -1 then -2 else signed

/-- The numpy seed computed at embedding_service.py line 79:
`hash(text) % (2**32)` (Python `%` on a positive modulus is the
Euclidean remainder, as is Lean's `Int.emod`).  The seed — and hence the
stub vector — is a function of the per-process hash secret as well as of
the text. -/
def stub_seed (k0 k1 : Nat) (text : String) : Nat :=
  ((pyStrHash k0 k1 text) % (2 ^ 32 : Int)).toNat

/-! ## EmbeddingService (app/services/embedding_service.py) -/

/-- The ambient process/library state an `EmbeddingService` closes over:

* `openai_client`: `some f` iff an OpenAI key is configured and the
  client was constructed (`__init__`, lines 22-37); `f` models one
  `embeddings.create` call and either returns one embedding per input or
  raises (modelled as `Except.error msg`, the stringified exception).
* `hash_k0`, `hash_k1`: the interpreter's per-process string-hash secret.
* `np_randn seed n`: numpy's `seed(seed); randn(n)` — a fixed
  deterministic function of the seed and the length.
* `np_norm v`: numpy's `linalg.norm(v)` (its float arithmetic is not
  re-derived; only the facts that it is a function of `v` matter here). -/
structure EmbeddingService where
  openai_client : Option (List String → Except String (List (List ℚ)))
  embedding_dim : Nat := 1536
  hash_k0 : Nat
  hash_k1 : Nat
  np_randn : Nat → Nat → List ℚ
  np_norm : List ℚ → ℚ

/-- `EmbeddingService._generate_stub_embedding(text)`
(embedding_service.py lines 71-86): seed numpy from the text's hash,
draw `embedding_dim` pseudo-random components, and divide by the L2 norm
when it is positive. -/
def generate_stub_embedding (svc : EmbeddingService) (text : String) : List ℚ :=
  let embedding := svc.np_randn (stub_seed svc.hash_k0 svc.hash_k1 text) svc.embedding_dim
  let norm := svc.np_norm embedding
  if norm > 0 then embedding.map (· / norm) else embedding

/-- `EmbeddingService.embed_texts(texts)` (embedding_service.py lines
43-69): empty input short-circuits to `[]`; with a configured client the
whole batch is one provider call whose failure is re-raised as
`ExternalServiceError(..., service="openai")`; otherwise each text gets
a stub embedding. -/
def embed_texts (svc : EmbeddingService) (texts : List String) :
    Except PyErr (List (List ℚ)) :=
  if texts = [] then .ok []
  else
    match svc.openai_client with
    | some client =>
      match client texts with
      | .ok embeddings => .ok embeddings
      | .error e =>
        .error (.externalServiceError ("Failed to generate embeddings: " ++ e) "openai")
    | none => .ok (texts.map (generate_stub_embedding svc))

/-- A Python expression of type "list or coroutine", as needed to model
line 41 of embedding_service.py.  Calling an `async def` function does
not run its body; it builds a coroutine object, which only `await`
executes. -/
inductive PyAwaitableList where
  | list (xs : List (List ℚ))
  | coroutine (body : Unit → Except PyErr (List (List ℚ)))

/-- Python subscription `x[i]` on such an expression.  Subscripting a
coroutine object raises `TypeError: 'coroutine' object is not
subscriptable`. -/
def pyGetItem : PyAwaitableList → Nat → Except PyErr (List ℚ)
  | .list xs, i =>
    match xs.get? i with
    | some v => .ok v
    | none => .error (.typeError "list index out of range")
  | .coroutine _, _ => .error (.typeError "'coroutine' object is not subscriptable")

/-- `EmbeddingService.embed_text(text)` (embedding_service.py lines 39-41).
The body is `return await self.embed_texts([text])[0]`.  Python
subscription binds tighter than `await`, so this subscripts the
coroutine object returned by the call `self.embed_texts([text])` before
any `await` happens; the subsequent `await` of the subscript's result is
never reached. -/
def embed_text (svc : EmbeddingService) (text : String) : Except PyErr (List ℚ) :=
  pyGetItem (.coroutine fun _ => embed_texts svc [text]) 0

/-! ## Data model (app/models) -/

/-- `DocumentType` (models/document.py): the source kind of a document. -/
inductive DocumentType where
  | text
  | url
  | file
  deriving Repr, DecidableEq

/-- A `Document` row (models/document.py), restricted to the fields the
embedded code reads or writes. -/
structure Document where
  id : Nat
  chatbox_id : Nat
  source_type : DocumentType
  source_name : String
  raw_content : String
  deriving Repr, DecidableEq

/-- A `Chunk` row (models/chunk.py), restricted to the fields the
embedded code reads or writes. -/
structure Chunk where
  id : Nat
  document_id : Nat
  chatbox_id : Nat
  content : String
  chunk_index : Nat
  embedding : List ℚ
  deriving Repr, DecidableEq

/-- A `Chatbox` row (models/chatbox.py), restricted to the fields the
embedded code reads or writes.  `allowed_domains` is a nullable column. -/
structure Chatbox where
  id : Nat
  organization_id : Nat
  name : String
  description : Option String
  allowed_domains : Option (List String)
  enforce_allowed_domains : Bool
  deriving Repr, DecidableEq

/-- `SourceChunk` (schemas/query.py): one entry of a query response's
source list. -/
structure SourceChunk where
  document_id : Nat
  chunk_id : Nat
  content : String
  score : ℚ
  source_name : Option String
  deriving Repr, DecidableEq

/-! ## ChunkRepository.similarity_search
(app/repositories/chunk_repository.py lines 37-114) -/

/-- One row returned by the pgvector similarity SQL text query. -/
structure SearchRow where
  id : Nat
  document_id : Nat
  chatbox_id : Nat
  content : String
  chunk_index : Nat
  similarity : ℚ
  deriving Repr, DecidableEq

/-- The external vector engine behind `session.execute`: one similarity
query either yields rows or raises (the pgvector extension may be
missing, the SQL may fail, …).  The arguments mirror the bound SQL
parameters. -/
structure VectorEngine where
  run : Nat → List ℚ → Int → ℚ → Option Nat → Except String (List SearchRow)

/-- `ChunkRepository.similarity_search` (chunk_repository.py lines
37-114): the whole body — SQL construction, execution, and row
conversion — sits in a `try`; `except Exception` returns `[]` (the
deliberate degrade-gracefully fallback of lines 107-114).  The function
therefore never raises. -/
def similarity_search (eng : VectorEngine) (chatbox_id : Nat)
    (query_embedding : List ℚ) (top_k : Int) (min_score : ℚ)
    (document_id : Option Nat) : Except PyErr (List (Chunk × ℚ)) :=
  match eng.run chatbox_id query_embedding top_k min_score document_id with
  | .ok rows =>
    .ok (rows.map fun r =>
      (⟨r.id, r.document_id, r.chatbox_id, r.content, r.chunk_index, []⟩, r.similarity))
  | .error _ => .ok []

/-! ## Stores and repositories (app/repositories) -/

/-- The persistent state the ingestion and query pipelines touch: the
committed `documents` and `chunks` tables, with the next auto-increment
ids. -/
structure Store where
  documents : List Document
  next_document_id : Nat
  chunks : List Chunk
  next_chunk_id : Nat
  deriving Repr, DecidableEq

/-- `DocumentRepository.create` (document_repository.py lines 17-22):
add the document, commit (the commit happens inside this call, before
the caller continues), refresh.  The database assigns the id. -/
def document_create (store : Store) (doc : Document) : Document × Store :=
  let doc' := { doc with id := store.next_document_id }
  (doc', { store with
            documents := store.documents ++ [doc'],
            next_document_id := store.next_document_id + 1 })

/-- `DocumentRepository.get_by_id_optional` (document_repository.py lines
35-40). -/
def document_get_by_id_optional (store : Store) (document_id : Nat) : Option Document :=
  store.documents.find? (fun d => d.id = document_id)

/-- `ChunkRepository.create_many` (chunk_repository.py lines 20-26):
bulk add, commit, refresh.  The database assigns consecutive ids. -/
def chunk_create_many (store : Store) (chunks : List Chunk) : List Chunk × Store :=
  let chunks' := chunks.enum.map fun (i, c) => { c with id := store.next_chunk_id + i }
  (chunks', { store with
               chunks := store.chunks ++ chunks',
               next_chunk_id := store.next_chunk_id + chunks.length })

/-! ## QueryService (app/services/query_service.py) -/

/-- `QueryService.validate_origin(chatbox, origin)` (query_service.py
lines 40-67).  Notes pinned to the source:

* `if not origin:` — `None` and the empty string both take the
  "Origin header is required" branch;
* `if not chatbox.allowed_domains:` — a null and an empty allow-list
  both take the "No allowed domains configured" branch;
* normalisation is `origin.lower().rstrip("/")`: lowercase, then remove
  ALL trailing `/` characters. -/
def validate_origin (chatbox : Chatbox) (origin : Option String) : Except PyErr Unit :=
  if chatbox.enforce_allowed_domains = false then .ok ()
  else if pyFalsyOptStr origin then
    .error (.forbiddenError "Origin header is required for this chatbox")
  else if pyFalsyOptList chatbox.allowed_domains then
    .error (.forbiddenError "No allowed domains configured for this chatbox")
  else
    let o := (origin.getD "")
    let origin_normalized := pyRstrip ['/'] (pyLower o)
    let allowed_normalized :=
      (chatbox.allowed_domains.getD []).map (fun d => pyRstrip ['/'] (pyLower d))
    if allowed_normalized.contains origin_normalized then .ok ()
    else .error (.originNotAllowedError o)

/-- The collaborators injected into a `QueryService`
(api/dependencies.py): the chunk and document repositories share one
`Store` (passed explicitly), and the LLM client — when configured — is
one `chat.completions` call for `LLMService.generate_answer`
(llm_service.py).  The LLM details beyond "some function of the question
and the context" are irrelevant to the claims in scope. -/
structure QueryWorld where
  store : Store
  engine : VectorEngine
  emb : EmbeddingService
  llm_generate : String → List String → Except PyErr String

/-- `QueryService.query` (query_service.py lines 69-143), with the
session state threaded explicitly.  Steps, in source order: validate the
origin; resolve `top_k` / `min_score` with Python `or` (so an explicit
`0` / `0.0` also falls back to the default); embed the question via
`embed_text`; similarity-search; on an empty result return the fixed
no-information answer with no sources (lines 104-107); otherwise
generate an answer and attach per-chunk source records with best-effort
document names. -/
def query (w : QueryWorld) (chatbox : Chatbox) (question : String)
    (origin : Option String) (document_id : Option Nat)
    (top_k : Option Int) (min_score : Option ℚ) :
    Except PyErr (String × List SourceChunk) := do
  let _ ← validate_origin chatbox origin
  let top_k := pyOrInt top_k vector_top_k_default
  let min_score := pyOrRat min_score vector_min_score_default
  let query_embedding ← embed_text w.emb question
  let chunks_with_scores ←
    similarity_search w.engine chatbox.id query_embedding top_k min_score document_id
  if chunks_with_scores = [] then
    pure ("I couldn't find any relevant information to answer your question.", [])
  else
    let chunks := chunks_with_scores.map Prod.fst
    let scores := chunks_with_scores.map Prod.snd
    let context_texts := chunks.map Chunk.content
    let answer ← w.llm_generate question context_texts
    -- `list(set(doc_ids))` then a dict keyed by id: the dict lookup per
    -- chunk is equivalent to a direct `get_by_id_optional` per chunk.
    let source_chunks := (chunks.zip scores).map fun (chunk, score) =>
      let doc := document_get_by_id_optional w.store chunk.document_id
      SourceChunk.mk chunk.document_id chunk.id chunk.content score
        (doc.map Document.source_name)
    pure (answer, source_chunks)

/-! ## Chatbox routes (app/api/routes/chatboxes.py) -/

/-- The body of `ChatboxCreate` (schemas/chatbox.py): `allowed_domains`
defaults to `None`, `enforce_allowed_domains` to `False`. -/
structure ChatboxCreate where
  name : String
  description : Option String
  allowed_domains : Option (List String) := none
  enforce_allowed_domains : Bool := false
  deriving Repr, DecidableEq

/-- The body of `ChatboxUpdate` (schemas/chatbox.py): every field
optional; `None` means "not provided". -/
structure ChatboxUpdate where
  name : Option String := none
  description : Option String := none
  allowed_domains : Option (List String) := none
  enforce_allowed_domains : Option Bool := none
  deriving Repr, DecidableEq

/-- `create_chatbox` (chatboxes.py lines 24-56): reject with
`ValidationError` when enforcement is requested with a missing or empty
allow-list (`not data.allowed_domains`), otherwise build the row (the
repository assigns the id). -/
def create_chatbox (data : ChatboxCreate) (org_id : Nat) (new_id : Nat) :
    Except PyErr Chatbox :=
  if data.enforce_allowed_domains && pyFalsyOptList data.allowed_domains then
    .error (.validationError
      "allowed_domains is required when enforce_allowed_domains is True")
  else
    .ok ⟨new_id, org_id, data.name, data.description,
         data.allowed_domains, data.enforce_allowed_domains⟩

/-- The field-update block of `update_chatbox` (chatboxes.py lines
106-114): each `is not None` field of the request overwrites the fetched
row. -/
def apply_chatbox_update (chatbox : Chatbox) (data : ChatboxUpdate) : Chatbox :=
  let chatbox := match data.name with
    | some n => { chatbox with name := n }
    | none => chatbox
  let chatbox := match data.description with
    | some d => { chatbox with description := some d }
    | none => chatbox
  let chatbox := match data.allowed_domains with
    | some ds => { chatbox with allowed_domains := some ds }
    | none => chatbox
  match data.enforce_allowed_domains with
    | some e => { chatbox with enforce_allowed_domains := e }
    | none => chatbox

/-- `update_chatbox` (chatboxes.py lines 95-121): apply each provided
field to the fetched row, then reject with `ValidationError` if the
resulting state enforces with a missing or empty allow-list; only a
validated state is persisted. -/
def update_chatbox (chatbox : Chatbox) (data : ChatboxUpdate) :
    Except PyErr Chatbox :=
  let chatbox := apply_chatbox_update chatbox data
  if chatbox.enforce_allowed_domains && pyFalsyOptList chatbox.allowed_domains then
    .error (.validationError
      "allowed_domains is required when enforce_allowed_domains is True")
  else .ok chatbox

/-! ## IngestionService (app/services/ingestion_service.py) -/

/-- The collaborators injected into an `IngestionService`
(api/dependencies.py): the shared store (explicit), the chunking
configuration (its effective `chunk_size` / `chunk_overlap`), and the
embedding service. -/
structure IngestWorld where
  chunk_size : Int
  chunk_overlap : Int
  emb : EmbeddingService

/-- `IngestionService.ingest_text` (ingestion_service.py lines 36-85),
with the session state threaded explicitly.  In source order: create and
commit the document; chunk; on zero chunks succeed with `(document, 0)`;
embed the whole batch (an exception here propagates — there is no
`try`/cleanup, so the committed document stays and no chunk is written);
build one `Chunk` per `(text, embedding)` pair with `chunk_index = i`;
bulk-persist; return `(document, len(chunks))`. -/
def ingest_text (w : IngestWorld) (store : Store) (chatbox_id : Nat)
    (text : String) (source_name : Option String) :
    Except PyErr (Document × Nat) × Store :=
  let (document, store) := document_create store
    ⟨0, chatbox_id, DocumentType.text, pyOrStr source_name "Raw Text", text⟩
  let chunks_text := chunk_text w.chunk_size w.chunk_overlap text
  if chunks_text = [] then (.ok (document, 0), store)
  else
    match embed_texts w.emb chunks_text with
    | .error e => (.error e, store)
    | .ok embeddings =>
      let chunks := (chunks_text.zip embeddings).enum.map
        fun (i, chunk_text, embedding) =>
          Chunk.mk 0 document.id chatbox_id chunk_text i embedding
      let (chunks, store) := chunk_create_many store chunks
      (.ok (document, chunks.length), store)

/-! ## Specification-side definitions

These definitions are written from the specification's words (not from
the source) and exist only to be compared against the embedded code. -/

/-- Spec §4.1 / §8: the number of chunk start offsets `0, step, 2·step, …`
that fall below `len` (for a positive step): `⌈len / step⌉`. -/
def numStarts (len step : Nat) : Nat := (len + step - 1) / step

/-- Spec §4.1: the chunk start offsets — beginning at `0` and "advancing
`start += chunkSize - overlap`" while `start < length(text)`. -/
def chunkStarts (len step : Nat) : List Nat :=
  List.range' 0 (numStarts len step) step

/-- Spec §4.1, stated as a whole: "the chunk is the substring
`[start, start+chunkSize)`, trimmed of leading/trailing whitespace; if
the trimmed chunk is non-empty it is appended", over the start offsets
of `chunkStarts`. -/
def chunk_text_specC6 (size ovl : Nat) (text : String) : List String :=
  (chunkStarts text.toList.length (size - ovl)).filterMap fun st =>
    let c := pyStrip ((text.toList.drop st).take size)
    if c = [] then none else some (String.mk c)

/-- The claim C3 / spec §4.6 normalisation, word for word: "lowercase,
strip a single trailing slash". -/
def c3_norm_single (s : String) : String :=
  let low := s.toList.map Char.toLower
  if low.getLast? = some '/' then String.mk low.dropLast else String.mk low

/-- Claim C3's acceptance condition for an enforcing collection with a
non-empty allow-list: the normalised origin exactly matches the
normalisation of some allow-list entry. -/
def c3_spec_accepts (allowed : List String) (origin : String) : Bool :=
  allowed.any fun d => c3_norm_single d = c3_norm_single origin

/-- Remove every trailing `/` of a character list (front-first
recursion; used by the amended form of claim C3). -/
def dropTrailingSlashes : List Char → List Char
  | [] => []
  | c :: cs =>
    match dropTrailingSlashes cs with
    | [] => if c = '/' then [] else [c]
    | r => c :: r

/-- The amended C3 normalisation: lowercase, then strip ALL trailing
slashes. -/
def c3_norm_all (s : String) : String :=
  String.mk (dropTrailingSlashes (s.toList.map Char.toLower))

/-- The amended claim C3, as a decision procedure written from the
amended words: skip when not enforcing; reject a missing OR empty origin
with `ForbiddenError`; reject a missing or empty allow-list with
`ForbiddenError`; otherwise accept exactly when the amended
normalisation of the origin matches that of some entry, rejecting with
`OriginNotAllowedError` naming the origin. -/
def validate_origin_amendedC3 (chatbox : Chatbox) (origin : Option String) :
    Except PyErr Unit :=
  if chatbox.enforce_allowed_domains = false then .ok ()
  else
    match origin with
    | none => .error (.forbiddenError "Origin header is required for this chatbox")
    | some o =>
      if o = "" then
        .error (.forbiddenError "Origin header is required for this chatbox")
      else
        match chatbox.allowed_domains with
        | none =>
          .error (.forbiddenError "No allowed domains configured for this chatbox")
        | some [] =>
          .error (.forbiddenError "No allowed domains configured for this chatbox")
        | some ds =>
          if ds.any (fun d => c3_norm_all d = c3_norm_all o) then .ok ()
          else .error (.originNotAllowedError o)

/-- A concrete enforcing chatbox with allow-list `["https://a.com"]`
(the collection of spec §8's origin-validation scenario). -/
def cbA : Chatbox :=
  ⟨1, 1, "widget", none, some ["https://a.com"], true⟩

/-- Claim C9's invariant on a collection: if `enforce_allowed_domains`
is set, the allow-list is present and non-empty. -/
def origin_allowlist_invariant (chatbox : Chatbox) : Bool :=
  !chatbox.enforce_allowed_domains || !pyFalsyOptList chatbox.allowed_domains

/-- A vector engine whose every similarity query raises (e.g. the
pgvector extension is missing). -/
def failingEngine : VectorEngine :=
  ⟨fun _ _ _ _ _ => .error "pgvector extension not enabled"⟩

/-- An embedding service whose configured provider call always raises
(timeout/quota/…): used to exercise the failure path of the pipelines. -/
def failingEmbeddingService : EmbeddingService :=
  ⟨some (fun _ => .error "quota exceeded"), 1536, 0, 0, fun _ _ => [], fun _ => 0⟩

/-! ## Helper lemmas (shared) -/

/-- A list strips to empty exactly when all its characters are
whitespace. -/
theorem pyStrip_eq_nil_iff (l : List Char) :
    pyStrip l = [] ↔ ∀ c ∈ l, pyIsSpace c := by
  unfold pyStrip
  rw [List.reverse_eq_nil_iff, List.dropWhile_eq_nil_iff]
  constructor
  · intro h c hc
    rw [← List.takeWhile_append_dropWhile (p := pyIsSpace) (l := l)] at hc
    rcases List.mem_append.mp hc with h1 | h2
    · exact List.mem_takeWhile_imp h1
    · exact h c (List.mem_reverse.mpr h2)
  · intro h x hx
    exact h x ((List.dropWhile_sublist pyIsSpace).subset (List.mem_reverse.mp hx))

/-- On natural indices, a Python slice is plain `drop`/`take`. -/
theorem pySlice_natCast (l : List Char) (st size : Nat) :
    pySlice l (st : Int) ((st : Int) + (size : Int)) = (l.drop st).take size := by
  unfold pySlice pyNormIdx
  have h1 : ¬ ((st : Int) < 0) := not_lt.mpr (Int.natCast_nonneg st)
  have h2 : ¬ ((st : Int) + (size : Int) < 0) := by
    have := Int.natCast_nonneg st
    have := Int.natCast_nonneg size
    omega
  rw [if_neg h1, if_neg h2, Int.toNat_natCast]
  have e2 : ((st : Int) + (size : Int)).toNat = st + size := by
    rw [← Nat.cast_add, Int.toNat_natCast]
  rw [e2]
  rcases le_or_lt l.length st with hle | hlt
  · have hm : min st l.length = l.length := min_eq_right hle
    rw [hm, List.drop_eq_nil_of_le hle]
    rw [List.take_nil]
    exact List.drop_eq_nil_of_le (by rw [List.length_take]; omega)
  · have hm : min st l.length = st := min_eq_left hlt.le
    rw [hm]
    have htake : l.take (min (st + size) l.length) = l.take (st + size) := by
      rcases le_or_lt (st + size) l.length with h | h
      · rw [min_eq_left h]
      · rw [min_eq_right h.le, List.take_length, List.take_of_length_le h.le]
    rw [htake, List.drop_take]
    congr 1
    omega

theorem numStarts_of_zero (step : Nat) (h : 0 < step) : numStarts 0 step = 0 := by
  unfold numStarts
  exact Nat.div_eq_of_lt (by omega)

theorem numStarts_succ (n step : Nat) (hstep : 0 < step) (hn : 0 < n) :
    numStarts n step = numStarts (n - step) step + 1 := by
  unfold numStarts
  have h1 : n + step - 1 = (n - 1) + step := by omega
  rw [h1, Nat.add_div_right _ hstep]
  rcases le_or_lt n step with h | h
  · have h2 : n - step = 0 := by omega
    have h3 : (n - 1) / step = 0 := Nat.div_eq_of_lt (by omega)
    have h4 : (0 + step - 1) / step = 0 := Nat.div_eq_of_lt (by omega)
    rw [h2, h3, h4]
  · have h3 : n - step + step - 1 = n - 1 := by omega
    rw [h3]

/-- The chunking loop, run from any start offset with enough fuel and a
positive advance, collects exactly the non-empty trimmed slices at the
offsets `st, st + step, st + 2·step, …` below the text length. -/
theorem chunkLoop_eq_spec (size ovl : Nat) (l : List Char)
    (hovl : ovl < size) :
    ∀ (fuel st : Nat) (acc : List String), l.length - st < fuel →
      chunkLoop (size : Int) (ovl : Int) l fuel (st : Int) acc =
        acc ++ (List.range' st (numStarts (l.length - st) (size - ovl)) (size - ovl)).filterMap
          (fun k =>
            if pyStrip ((l.drop k).take size) = [] then none
            else some (String.mk (pyStrip ((l.drop k).take size)))) := by
  have hstep : 0 < size - ovl := by omega
  intro fuel
  induction fuel with
  | zero => intro st acc h; omega
  | succ fuel ih =>
    intro st acc h
    rw [chunkLoop]
    by_cases hst : st < l.length
    · have hstI : (st : Int) < (l.length : Int) := by exact_mod_cast hst
      rw [if_pos hstI]
      have hovlI : (ovl : Int) < (size : Int) := by exact_mod_cast hovl
      have hnb : ¬ ((st : Int) + (size : Int) - (ovl : Int) ≤ 0) := by omega
      have hadv : (st : Int) + (size : Int) - (ovl : Int) = ((st + (size - ovl) : Nat) : Int) := by
        push_cast [Nat.cast_sub hovl.le]
        ring
      have hslice := pySlice_natCast l st size
      have hn : 0 < l.length - st := by omega
      have hnb' : ¬ (((st + (size - ovl) : Nat) : Int) ≤ 0) := by rw [← hadv]; exact hnb
      rw [numStarts_succ _ _ hstep hn, List.range'_succ]
      have hfuel : l.length - (st + (size - ovl)) < fuel := by omega
      by_cases hc : pyStrip ((l.drop st).take size) = []
      · rw [List.filterMap_cons_none (by simp [hc])]
        simp only [hslice, hc, ne_eq, not_true_eq_false, if_false, hadv, if_neg hnb']
        rw [ih (st + (size - ovl)) acc hfuel]
        rw [Nat.sub_sub]
      · rw [List.filterMap_cons_some (b := String.mk (pyStrip ((l.drop st).take size)))
          (by simp [hc])]
        simp only [hslice, hc, ne_eq, not_false_eq_true, if_true, hadv, if_neg hnb']
        rw [ih (st + (size - ovl)) (acc ++ [String.mk (pyStrip ((l.drop st).take size))]) hfuel]
        rw [Nat.sub_sub, List.append_assoc]
        rfl
    · have hstI : ¬ ((st : Int) < (l.length : Int)) := by exact_mod_cast hst
      rw [if_neg hstI]
      have hz : l.length - st = 0 := by omega
      rw [hz, numStarts_of_zero _ hstep]
      simp

theorem dropTrailingSlashes_append (cs : List Char) (c : Char) :
    dropTrailingSlashes (cs ++ [c]) =
      if c = '/' then dropTrailingSlashes cs else cs ++ [c] := by
  induction cs with
  | nil => rfl
  | cons a as ih =>
    show dropTrailingSlashes (a :: (as ++ [c])) = _
    rw [dropTrailingSlashes, ih]
    by_cases hc : c = '/'
    · simp only [hc, if_true]
      conv_rhs => rw [dropTrailingSlashes]
    · simp only [hc, if_false]
      cases as <;> rfl

/-- Python's `rstrip("/")` (reverse, drop leading, reverse) computes the
same function as the front-first `dropTrailingSlashes`. -/
theorem pyRstrip_toList_eq_dropTrailingSlashes (l : List Char) :
    (l.reverse.dropWhile (['/'].contains ·)).reverse = dropTrailingSlashes l := by
  induction l using List.reverseRecOn with
  | nil => rfl
  | append_singleton cs c ih =>
    rw [dropTrailingSlashes_append]
    by_cases hc : c = '/'
    · simp only [List.reverse_append, List.reverse_singleton, List.singleton_append,
        List.dropWhile_cons, hc, if_pos]
      simpa using ih
    · have hpc : (['/'].contains c) = false := by
        simp [List.contains, hc]
      simp [List.dropWhile_cons, hpc, hc]

/-- The code's normalisation (`origin.lower().rstrip("/")`) equals the
amended-claim normalisation (lowercase then strip ALL trailing
slashes). -/
theorem norm_code_eq_norm_amended (s : String) :
    pyRstrip ['/'] (pyLower s) = c3_norm_all s := by
  unfold pyRstrip pyLower c3_norm_all
  rw [show (String.mk (s.toList.map Char.toLower)).toList = s.toList.map Char.toLower from rfl]
  rw [pyRstrip_toList_eq_dropTrailingSlashes]

/-- Membership of the normalised origin in the normalised allow-list
equals the amended existence test. -/
theorem contains_norm_eq (ds : List String) (o : String) :
    (ds.map (fun x => pyRstrip ['/'] (pyLower x))).contains (pyRstrip ['/'] (pyLower o)) =
      ds.any (fun x => c3_norm_all x = c3_norm_all o) := by
  induction ds with
  | nil => rfl
  | cons d rest ih =>
    rw [List.map_cons, List.contains_cons, ih, List.any_cons]
    congr 1
    rw [norm_code_eq_norm_amended, norm_code_eq_norm_amended]
    by_cases h : c3_norm_all d = c3_norm_all o
    · simp [h]
    · have h' : ¬ c3_norm_all o = c3_norm_all d := fun he => h he.symm
      simp [h, h']

/-! ## Claim theorems -/

/-- C1 (code_bug record): the claim says a query whose vector search
returns no chunks yields the fixed "no relevant information" answer with
an empty source list as a successful result.  In the code, `query` can
never reach that branch: for every world, chatbox and argument
combination, `QueryService.query` fails before the similarity search —
`embed_text` (line 92) raises `TypeError` on every call (see C2) — so no
invocation of `query` ever returns successfully and the LLM is likewise
never reached. -/
theorem query_never_returns_an_answer (w : QueryWorld) (chatbox : Chatbox)
    (question : String) (origin : Option String) (document_id : Option Nat)
    (top_k : Option Int) (min_score : Option ℚ) :
    (query w chatbox question origin document_id top_k min_score).isOk = false := by
  unfold query
  cases hv : validate_origin chatbox origin with
  | error e => simp [hv, Bind.bind, Except.bind, Except.isOk, Except.toBool]
  | ok u => simp [hv, Bind.bind, Except.bind, embed_text, pyGetItem,
      Except.isOk, Except.toBool]

/-- C2 (code_bug record): `EmbeddingService.embed_text` never returns
the first element of `embed_texts([text])`; because Python subscription
binds tighter than `await`, line 41 subscripts the coroutine object and
raises `TypeError` on every input, for every service configuration. -/
theorem embed_text_always_raises_type_error (svc : EmbeddingService) (text : String) :
    embed_text svc text =
      .error (.typeError "'coroutine' object is not subscriptable") := rfl

/-- C3 counterexample: the claim's normalisation ("strip a single
trailing slash") disagrees with the code on `"https://a.com//"` against
allow-list `["https://a.com"]`: the code accepts it (its `rstrip("/")`
strips BOTH slashes) while the claim's normalisation does not match, so
the claimed "accepted if and only if" is false.  Moreover an explicitly
supplied empty-string origin is rejected by the code as a missing origin
(`ForbiddenError`), not as a non-matching one
(`OriginNotAllowedError`). -/
theorem validate_origin_counterexample :
    validate_origin cbA (some "https://a.com//") = .ok () ∧
    c3_spec_accepts ["https://a.com"] "https://a.com//" = false ∧
    validate_origin cbA (some "") =
      .error (.forbiddenError "Origin header is required for this chatbox") ∧
    validate_origin cbA (some "") ≠ .error (.originNotAllowedError "") := by
  have h3 : validate_origin cbA (some "") =
      .error (.forbiddenError "Origin header is required for this chatbox") := rfl
  refine ⟨rfl, by decide, h3, by rw [h3]; simp⟩

/-- C3 amended: origin validation decides exactly as claimed once the
normalisation is corrected to "lowercase, strip ALL trailing slashes"
and a missing-or-empty origin (rather than only a missing one) raises
`ForbiddenError`: `validate_origin` coincides with the amended
specification-side decision procedure on every collection and origin. -/
theorem validate_origin_matches_amended (chatbox : Chatbox) (origin : Option String) :
    validate_origin chatbox origin = validate_origin_amendedC3 chatbox origin := by
  unfold validate_origin validate_origin_amendedC3
  cases hE : chatbox.enforce_allowed_domains
  · simp
  · simp only [Bool.true_eq_false, if_false]
    cases origin with
    | none => simp [pyFalsyOptStr]
    | some o =>
      by_cases ho : o = ""
      · simp [pyFalsyOptStr, ho]
      · simp only [pyFalsyOptStr, ho, if_neg ho, decide_eq_true_eq, Bool.false_eq_true,
          if_false, Option.getD_some]
        cases hD : chatbox.allowed_domains with
        | none => simp [pyFalsyOptList]
        | some ds =>
          cases ds with
          | nil => simp [pyFalsyOptList]
          | cons d rest =>
            have hfal : pyFalsyOptList (some (d :: rest)) = false := rfl
            rw [hfal]
            simp only [Bool.false_eq_true, if_false]
            by_cases hm : (d :: rest).any (fun x => c3_norm_all x = c3_norm_all o) = true
            · have hm' := (contains_norm_eq (d :: rest) o).trans hm
              simp only [Option.getD_some, hm, hm', if_true]
            · rw [Bool.not_eq_true] at hm
              have hm' : ((d :: rest).map (fun x => pyRstrip ['/'] (pyLower x))).contains
                  (pyRstrip ['/'] (pyLower o)) = false := (contains_norm_eq (d :: rest) o).trans hm
              simp only [Option.getD_some, hm, hm', Bool.false_eq_true, if_false]

/-- C4 counterexample: with `overlap >= chunkSize` (here `5 >= 5`, a
non-positive advance) the chunker does NOT fail fast with a
configuration/validation error — `chunk_text` contains no raise at all —
it silently returns the first chunk. -/
theorem chunk_text_nonpositive_advance_counterexample :
    chunk_text 5 5 "hello world" = ["hello"] := by decide

/-- C4 amended: for every configuration with `overlap >= chunkSize`, the
chunker terminates after a single iteration (the `start <= 0` guard
breaks the loop) and silently returns at most the first trimmed chunk —
never an error and never an infinite loop. -/
theorem chunk_text_nonpositive_advance_truncates (size ovl : Int) (text : String)
    (h : size ≤ ovl) :
    chunk_text size ovl text =
      if text.toList = [] ∨ pyStrip text.toList = [] then []
      else if pyStrip (pySlice text.toList 0 size) = [] then []
      else [String.mk (pyStrip (pySlice text.toList 0 size))] := by
  by_cases he : text.toList = [] ∨ pyStrip text.toList = []
  · have he' : text.data = [] ∨ pyStrip text.data = [] := he
    simp [chunk_text, he']
  · push_neg at he
    have hlen : 0 < text.toList.length := List.length_pos.mpr he.1
    have h0lt : (0 : Int) < (text.toList.length : Int) := by exact_mod_cast hlen
    have hbr : (0 : Int) + size - ovl ≤ 0 := by omega
    rw [chunk_text, if_neg (by tauto)]
    rw [if_neg (by tauto)]
    unfold chunkLoop
    rw [if_pos h0lt, if_pos hbr]
    simp only [zero_add]
    by_cases hc : pyStrip (pySlice text.toList 0 size) = []
    · simp [hc]
    · simp [hc]

/-- C4 witness: a concrete run of the amended statement — `chunkSize=3`,
`overlap=7` on `"  hi there"` silently yields just the first trimmed
chunk. -/
theorem chunk_text_nonpositive_advance_truncates_witness :
    chunk_text 3 7 "  hi there" = ["h"] := by
  have h := chunk_text_nonpositive_advance_truncates 3 7 "  hi there" (by decide)
  rw [h]
  decide

/-- C5 (code_bug record): the numpy seed of the stub embedding is NOT a
function of the text's content alone.  It is `hash(text) % 2**32` where
`hash` is CPython's per-process-salted SipHash-1-3: for the same text
`"foo"`, the interpreter hash secret `(0, 0)` yields seed `29979642`
while the secret `(0, 1)` yields seed `607400708`, so two processes with
different secrets produce different stub vectors for the same text,
contradicting cross-process bit-identical determinism. -/
theorem stub_seed_depends_on_process_hash_secret :
    stub_seed 0 0 "foo" = 29979642 ∧ stub_seed 0 1 "foo" = 607400708 ∧
    stub_seed 0 0 "foo" ≠ stub_seed 0 1 "foo" := by decide

/-- C6: for every configuration with `chunkSize > 0` and
`0 <= overlap < chunkSize`, `chunk_text` equals the specification-side
chunker: chunks are taken at start offsets `0, step, 2·step, …`
(`step = chunkSize - overlap`, so offsets strictly increase by exactly
that amount, preserving document order), each chunk is the trimmed
substring `[start, start+chunkSize)` and is kept only if non-empty; and
empty or all-whitespace input yields the empty list, not an error. -/
theorem chunk_text_follows_spec (size ovl : Nat) (text : String)
    (hsize : 0 < size) (hovl : ovl < size) :
    chunk_text (size : Int) (ovl : Int) text = chunk_text_specC6 size ovl text ∧
    (pyStrip text.toList = [] → chunk_text (size : Int) (ovl : Int) text = []) := by
  constructor
  · unfold chunk_text chunk_text_specC6 chunkStarts
    by_cases he : text.toList = [] ∨ pyStrip text.toList = []
    · rw [if_pos he]
      symm
      rw [List.filterMap_eq_nil_iff]
      intro k hk
      rcases he with h0 | hsp
      · rw [h0] at hk ⊢
        simp at hk
        have : numStarts 0 (size - ovl) = 0 := numStarts_of_zero _ (by omega)
        simp [this] at hk
      · have hall : ∀ c ∈ (text.toList.drop k).take size, pyIsSpace c := fun c hc =>
          (pyStrip_eq_nil_iff _).mp hsp c
            (List.drop_subset _ _ (List.take_subset _ _ hc))
        exact if_pos ((pyStrip_eq_nil_iff _).mpr hall)
    · rw [if_neg he]
      have h := chunkLoop_eq_spec size ovl text.toList hovl
        (text.toList.length + 1) 0 [] (by omega)
      rw [show ((0 : Nat) : Int) = (0 : Int) from rfl] at h
      rw [h]
      simp
  · intro hsp
    rw [chunk_text, if_pos (Or.inr hsp)]

/-- C6 witness: concrete runs — `chunkSize=5`, `overlap=2` on
`"ab cd ef"` matches the specification chunker and produces the expected
overlapping chunks, and all-whitespace input yields `[]`. -/
theorem chunk_text_follows_spec_witness :
    chunk_text 5 2 "ab cd ef" = chunk_text_specC6 5 2 "ab cd ef" ∧
    chunk_text_specC6 5 2 "ab cd ef" = ["ab cd", "cd ef", "ef"] ∧
    chunk_text 5 2 "   " = [] :=
  ⟨(chunk_text_follows_spec 5 2 "ab cd ef" (by decide) (by decide)).1,
   by decide,
   (chunk_text_follows_spec 5 2 "   " (by decide) (by decide)).2 (by decide)⟩

/-- C7: whenever the underlying vector engine raises on the similarity
query, `similarity_search` returns the empty list as a SUCCESSFUL result
(it never re-raises): the `except Exception` fallback of
chunk_repository.py lines 107-114. -/
theorem similarity_search_returns_empty_on_engine_failure
    (eng : VectorEngine) (chatbox_id : Nat) (query_embedding : List ℚ)
    (top_k : Int) (min_score : ℚ) (document_id : Option Nat) (msg : String)
    (h : eng.run chatbox_id query_embedding top_k min_score document_id = .error msg) :
    similarity_search eng chatbox_id query_embedding top_k min_score document_id
      = .ok [] := by
  simp [similarity_search, h]

/-- C7 witness: a concrete failing engine (missing pgvector) yields
`ok []`. -/
theorem similarity_search_returns_empty_on_engine_failure_witness :
    similarity_search failingEngine 1 [1, 0] 5 (7/10) none = .ok [] :=
  similarity_search_returns_empty_on_engine_failure failingEngine 1 [1, 0] 5 (7/10) none
    "pgvector extension not enabled" rfl

/-- C8 counterexample: a caller-supplied `top_k = 0` or
`min_score = 0.0` is NOT used as given — Python `or` treats `0`/`0.0` as
falsy, so both are replaced by the configured defaults (`5` and `0.7`),
contradicting the claim's "including 0 or 0.0". -/
theorem resolve_defaults_counterexample :
    pyOrInt (some 0) vector_top_k_default ≠ 0 ∧
    pyOrRat (some 0) vector_min_score_default ≠ 0 ∧
    pyOrInt (some 0) vector_top_k_default = 5 := by
  refine ⟨by decide, ?_, by decide⟩
  norm_num [pyOrRat, vector_min_score_default]

/-- C8 amended: `top_k` and `min_score` fall back to the configured
defaults exactly when the caller omits them OR supplies the falsy values
`0` / `0.0`; every other supplied value is used as given. -/
theorem resolve_defaults_amended (v : Int) (q : ℚ) (hv : v ≠ 0) (hq : q ≠ 0) :
    pyOrInt none vector_top_k_default = vector_top_k_default ∧
    pyOrRat none vector_min_score_default = vector_min_score_default ∧
    pyOrInt (some 0) vector_top_k_default = vector_top_k_default ∧
    pyOrRat (some 0) vector_min_score_default = vector_min_score_default ∧
    pyOrInt (some v) vector_top_k_default = v ∧
    pyOrRat (some q) vector_min_score_default = q := by
  refine ⟨rfl, rfl, rfl, rfl, ?_, ?_⟩ <;> simp [pyOrInt, pyOrRat, hv, hq]

/-- C8 witness: supplied non-falsy values (`top_k = 3`,
`min_score = 1/2`) are used as given. -/
theorem resolve_defaults_amended_witness :
    pyOrInt (some 3) vector_top_k_default = 3 ∧
    pyOrRat (some (1/2)) vector_min_score_default = 1/2 :=
  ⟨(resolve_defaults_amended 3 (1/2) (by decide) (by norm_num)).2.2.2.2.1,
   (resolve_defaults_amended 3 (1/2) (by decide) (by norm_num)).2.2.2.2.2⟩

/-- C9: every collection state reachable through `create_chatbox` or
`update_chatbox` satisfies the invariant "enforcement implies a present,
non-empty allow-list", and both endpoints reject a violating state with
the `ValidationError` of chatboxes.py lines 42-45 / 117-121. -/
theorem chatbox_routes_enforce_allowlist_invariant :
    (∀ (dataC : ChatboxCreate) (org_id new_id : Nat) (cb : Chatbox),
      create_chatbox dataC org_id new_id = .ok cb →
      origin_allowlist_invariant cb = true) ∧
    (∀ (dataC : ChatboxCreate) (org_id new_id : Nat),
      (dataC.enforce_allowed_domains && pyFalsyOptList dataC.allowed_domains) = true →
      create_chatbox dataC org_id new_id = .error (.validationError
        "allowed_domains is required when enforce_allowed_domains is True")) ∧
    (∀ (cb : Chatbox) (dataU : ChatboxUpdate) (cb' : Chatbox),
      update_chatbox cb dataU = .ok cb' →
      origin_allowlist_invariant cb' = true) ∧
    (∀ (cb : Chatbox) (dataU : ChatboxUpdate),
      origin_allowlist_invariant (apply_chatbox_update cb dataU) = false →
      update_chatbox cb dataU = .error (.validationError
        "allowed_domains is required when enforce_allowed_domains is True")) := by
  refine ⟨?_, ?_, ?_, ?_⟩
  · intro dataC org_id new_id cb hc
    unfold create_chatbox at hc
    by_cases hb : (dataC.enforce_allowed_domains && pyFalsyOptList dataC.allowed_domains) = true
    · simp [hb] at hc
    · simp [hb] at hc
      subst hc
      simp [origin_allowlist_invariant]
      revert hb
      cases dataC.enforce_allowed_domains <;>
        cases hpf : pyFalsyOptList dataC.allowed_domains <;> simp
  · intro dataC org_id new_id hb
    simp [create_chatbox, hb]
  · intro cb dataU cb' hu
    unfold update_chatbox at hu
    by_cases hb : ((apply_chatbox_update cb dataU).enforce_allowed_domains &&
        pyFalsyOptList (apply_chatbox_update cb dataU).allowed_domains) = true
    · simp [hb] at hu
    · simp [hb] at hu
      subst hu
      simp [origin_allowlist_invariant]
      revert hb
      cases (apply_chatbox_update cb dataU).enforce_allowed_domains <;>
        cases hpf : pyFalsyOptList (apply_chatbox_update cb dataU).allowed_domains <;> simp
  · intro cb dataU hb
    unfold origin_allowlist_invariant at hb
    unfold update_chatbox
    have hand : ((apply_chatbox_update cb dataU).enforce_allowed_domains &&
        pyFalsyOptList (apply_chatbox_update cb dataU).allowed_domains) = true := by
      revert hb
      cases (apply_chatbox_update cb dataU).enforce_allowed_domains <;>
        cases pyFalsyOptList (apply_chatbox_update cb dataU).allowed_domains <;> simp
    simp [hand]

/-- C9 witness: a valid create passes the invariant, and clearing the
allow-list of an enforcing chatbox via update is rejected with
`ValidationError`. -/
theorem chatbox_routes_enforce_allowlist_invariant_witness :
    origin_allowlist_invariant ⟨7, 1, "widget", none, some ["https://a.com"], true⟩ = true ∧
    update_chatbox cbA ⟨none, none, some [], none⟩ = .error (.validationError
      "allowed_domains is required when enforce_allowed_domains is True") :=
  ⟨(chatbox_routes_enforce_allowlist_invariant).1
      ⟨"widget", none, some ["https://a.com"], true⟩ 1 7 _ rfl,
   (chatbox_routes_enforce_allowlist_invariant).2.2.2 cbA ⟨none, none, some [], none⟩
      (by decide)⟩

/-- C10: if chunking produced a non-empty batch and the embedding step
raises, `ingest_text` propagates exactly that error while the store
keeps the document committed in step 1 (appended, id assigned, not
rolled back by this layer) and the chunk table is untouched. -/
theorem ingest_text_embed_failure_keeps_document_writes_no_chunks
    (w : IngestWorld) (store : Store) (chatbox_id : Nat) (text : String)
    (source_name : Option String) (e : PyErr)
    (hch : chunk_text w.chunk_size w.chunk_overlap text ≠ [])
    (hemb : embed_texts w.emb (chunk_text w.chunk_size w.chunk_overlap text) = .error e) :
    ingest_text w store chatbox_id text source_name =
      (.error e,
       { store with
          documents := store.documents ++
            [⟨store.next_document_id, chatbox_id, DocumentType.text,
              pyOrStr source_name "Raw Text", text⟩],
          next_document_id := store.next_document_id + 1 }) := by
  simp [ingest_text, document_create, hch, hemb]

/-- C10 witness: a concrete ingestion against a failing provider — the
document row is committed and kept, the error propagates, and no chunk
row is written. -/
theorem ingest_text_embed_failure_keeps_document_writes_no_chunks_witness :
    ingest_text ⟨1000, 200, failingEmbeddingService⟩ ⟨[], 1, [], 1⟩ 42 "hello world" none =
      (.error (.externalServiceError "Failed to generate embeddings: quota exceeded" "openai"),
       ⟨[⟨1, 42, DocumentType.text, "Raw Text", "hello world"⟩], 2, [], 1⟩) := by
  have h := ingest_text_embed_failure_keeps_document_writes_no_chunks
    ⟨1000, 200, failingEmbeddingService⟩ ⟨[], 1, [], 1⟩ 42 "hello world" none
    (.externalServiceError "Failed to generate embeddings: quota exceeded" "openai")
    (by decide) rfl
  rw [h]
  rfl

end Helperly
